import Mathlib

/-!
Shallow embedding of the hackathon posting backend (Go, `src/hackthon/db/main.go`
plus the duplicated snapshots under `src/unnamed/`).

The relational store is modelled as an explicit state (`DB`): four tables held as
lists in insertion order, together with the auto-increment counters that the
store uses to assign internal keys.  Each HTTP handler becomes a pure function
from the current state and the decoded request body to a result record carrying
the HTTP status, the encoded response body, the successor state and the number
of storage operations the handler performed before answering.

Go decodes JSON into a struct, silently substituting the zero value for every
absent field; we model an inbound body as `Option` of a wire record whose fields
are themselves `Option`s (`none` body = malformed JSON that fails to decode,
`none` field = field absent from the JSON object), and the decode step fills in
Go zero values exactly as `encoding/json` does.

Timestamps are abstract `Nat` instants; each handler that stamps a time takes
the current instant as a parameter.
-/

/-- A row of the `users` table. -/
structure UserRow where
  id : Nat
  uid : String
  username : String
  email : String
  createdAt : Nat
deriving Repr, DecidableEq

/-- A row of the `posts` table. -/
structure PostRow where
  id : Nat
  userId : Nat
  content : String
  createdAt : Nat
  updatedAt : Nat
deriving Repr, DecidableEq

/-- A row of the `replies` table. -/
structure ReplyRow where
  id : Nat
  postId : Nat
  userId : Nat
  content : String
  createdAt : Nat
  updatedAt : Nat
deriving Repr, DecidableEq

/-- The relational store: the four tables in insertion order plus the
auto-increment counters assigning internal keys. A like is the pair
(user key, post key). -/
structure DB where
  users : List UserRow
  posts : List PostRow
  replies : List ReplyRow
  likes : List (Nat × Nat)
  nextUserId : Nat
  nextPostId : Nat
  nextReplyId : Nat
deriving Repr, DecidableEq

/-- SELECT id FROM users WHERE uid = ? — `none` models sql.ErrNoRows. -/
def selectUserIdByUid (db : DB) (uid : String) : Option Nat :=
  (db.users.find? (fun u => u.uid == uid)).map (fun u => u.id)

/-- Modelled from the spec: the `likes` table carries a uniqueness constraint
over (user key, post key) in the database schema, which is not part of the
repository sources; under that constraint, MySQL INSERT IGNORE (used by
`createLike` in `src/hackthon/db/main.go`) inserts the pair exactly when it is
absent and is a silent no-op otherwise. -/
def insertIgnoreLike (db : DB) (userId postId : Nat) : DB :=
  if (userId, postId) ∈ db.likes then db
  else { db with likes := db.likes ++ [(userId, postId)] }

/-- Result of one handler invocation: HTTP status, encoded response body
(`none` when the handler answered with http.Error), successor store state, and
how many storage operations the handler issued. -/
structure HandlerOut (α : Type) where
  status : Nat
  body : Option α
  db : DB
  storageOps : Nat
deriving Repr, DecidableEq

/-- Wire shape of the POST /api/likes body. -/
structure LikeWire where
  uid : Option String
  postId : Option Nat
deriving Repr, DecidableEq

/-- The Go struct the likes payload decodes into. -/
structure LikeReq where
  uid : String
  postId : Nat
deriving Repr, DecidableEq

/-- encoding/json decode of the likes body: absent fields become zero values. -/
def decodeLikeBody : Option LikeWire → Option LikeReq
  | none => none
  | some w => some ⟨w.uid.getD "", w.postId.getD 0⟩

/-- Handler createLike (src/hackthon/db/main.go, lines 123-148): decode the
body, resolve uid to the internal user key, INSERT IGNORE the pair. -/
def createLike (db : DB) (body : Option LikeWire) : HandlerOut String :=
  match decodeLikeBody body with
  | none => ⟨400, none, db, 0⟩
  | some req =>
    match selectUserIdByUid db req.uid with
    | none => ⟨500, none, db, 1⟩
    | some userId =>
      ⟨200, some "いいね登録完了", insertIgnoreLike db userId req.postId, 2⟩

/-- Handler createLike of the snapshot src/unnamed/part_000 (lines 210-234):
the payload carries user and post keys directly, and a duplicate pair is
surfaced as a 409 conflict via MySQL duplicate-key error 1062 raised by the
uniqueness constraint (see insertIgnoreLike for the constraint model). -/
def createLikeConflict (db : DB) (body : Option (Nat × Nat)) : HandlerOut String :=
  match body with
  | none => ⟨400, none, db, 0⟩
  | some pair =>
    if (pair.2, pair.1) ∈ db.likes then ⟨409, none, db, 1⟩
    else ⟨200, some "created", { db with likes := db.likes ++ [(pair.2, pair.1)] }, 1⟩

/-- Wire shape of the POST /api/login body. -/
structure LoginWire where
  uid : Option String
  email : Option String
  username : Option String
deriving Repr, DecidableEq

/-- The Go struct the login payload decodes into. -/
structure LoginReq where
  uid : String
  email : String
  username : String
deriving Repr, DecidableEq

/-- encoding/json decode of the login body. -/
def decodeLoginBody : Option LoginWire → Option LoginReq
  | none => none
  | some w => some ⟨w.uid.getD "", w.email.getD "", w.username.getD ""⟩

/-- Handler loginHandler (src/hackthon/db/main.go, lines 150-183), the identity
resolver: look the uid up; if absent insert a fresh user row stamped now and
answer with the newly assigned key, otherwise answer with the existing key. -/
def loginHandler (db : DB) (body : Option LoginWire) (now : Nat) : HandlerOut Nat :=
  match decodeLoginBody body with
  | none => ⟨400, none, db, 0⟩
  | some req =>
    match selectUserIdByUid db req.uid with
    | some id => ⟨200, some id, db, 1⟩
    | none =>
      let id := db.nextUserId
      let db2 : DB := { db with
        users := db.users ++ [⟨id, req.uid, req.username, req.email, now⟩],
        nextUserId := id + 1 }
      ⟨200, some id, db2, 2⟩

/-- Wire shape of the POST /api/posts body. -/
structure PostWire where
  uid : Option String
  content : Option String
deriving Repr, DecidableEq

/-- The Go struct the post payload decodes into. -/
structure PostReq where
  uid : String
  content : String
deriving Repr, DecidableEq

/-- encoding/json decode of the post body. -/
def decodePostBody : Option PostWire → Option PostReq
  | none => none
  | some w => some ⟨w.uid.getD "", w.content.getD ""⟩

/-- The aggregated Post view the API encodes: base row fields, derived like
count and derived reply list. A Go nil slice encodes to JSON null while an
empty slice encodes to []; we model the replies slice as Option (List ReplyRow)
with none standing for the nil slice. -/
structure PostView where
  id : Nat
  userId : Nat
  content : String
  likes : Nat
  replies : Option (List ReplyRow)
  createdAt : Nat
  updatedAt : Nat
deriving Repr, DecidableEq

/-- Handler createPost (src/hackthon/db/main.go, lines 301-334): decode, resolve
uid, insert the post row, answer with the assembled Post carrying the assigned
key, zero likes and an empty (non-nil) reply slice. -/
def createPost (db : DB) (body : Option PostWire) (now : Nat) : HandlerOut PostView :=
  match decodePostBody body with
  | none => ⟨400, none, db, 0⟩
  | some req =>
    match selectUserIdByUid db req.uid with
    | none => ⟨500, none, db, 1⟩
    | some userId =>
      let id := db.nextPostId
      let db2 : DB := { db with
        posts := db.posts ++ [⟨id, userId, req.content, now, now⟩],
        nextPostId := id + 1 }
      ⟨200, some ⟨id, userId, req.content, 0, some [], now, now⟩, db2, 2⟩

/-- Wire shape of the POST /api/replies body. -/
structure ReplyWire where
  uid : Option String
  postId : Option Nat
  content : Option String
deriving Repr, DecidableEq

/-- The Go struct the reply payload decodes into. -/
structure ReplyReq where
  uid : String
  postId : Nat
  content : String
deriving Repr, DecidableEq

/-- encoding/json decode of the reply body. -/
def decodeReplyBody : Option ReplyWire → Option ReplyReq
  | none => none
  | some w => some ⟨w.uid.getD "", w.postId.getD 0, w.content.getD ""⟩

/-- Handler createReply (src/hackthon/db/main.go, lines 374-408). -/
def createReply (db : DB) (body : Option ReplyWire) (now : Nat) : HandlerOut ReplyRow :=
  match decodeReplyBody body with
  | none => ⟨400, none, db, 0⟩
  | some req =>
    match selectUserIdByUid db req.uid with
    | none => ⟨500, none, db, 1⟩
    | some userId =>
      let id := db.nextReplyId
      let row : ReplyRow := ⟨id, req.postId, userId, req.content, now, now⟩
      let db2 : DB := { db with
        replies := db.replies ++ [row],
        nextReplyId := id + 1 }
      ⟨200, some row, db2, 2⟩

/-- Like count of one post: SELECT COUNT(*) FROM likes WHERE post_id = ?. -/
def likeCount (db : DB) (postId : Nat) : Nat :=
  (db.likes.filter (fun l => l.2 == postId)).length

/-- Reply listing of one post: SELECT ... FROM replies WHERE post_id = ?, in
natural storage (insertion) order. -/
def repliesFor (db : DB) (postId : Nat) : List ReplyRow :=
  db.replies.filter (fun r => r.postId == postId)

/-- Occurrences of one (user key, post key) pair in the likes table. -/
def countLikes (db : DB) (userId postId : Nat) : Nat :=
  (db.likes.filter (fun l => l == (userId, postId))).length

/-- Failure oracle for the aggregator loop of getPosts: which base-row scans,
per-post like-count queries, per-post reply queries and reply-row scans fail
during one listing request. -/
structure FaultModel where
  scanPostFails : PostRow → Bool
  likeQueryFails : Nat → Bool
  replyQueryFails : Nat → Bool
  scanReplyFails : ReplyRow → Bool

/-- The failure-free oracle. -/
def noFaults : FaultModel :=
  ⟨fun _ => false, fun _ => false, fun _ => false, fun _ => false⟩

/-- The reply rows the loop manages to read for one post: none when the reply
query itself failed (the slice stays at its empty initialisation), otherwise
every row whose scan succeeded, each failing scan being skipped with continue. -/
def scannedReplies (db : DB) (f : FaultModel) (postId : Nat) : List ReplyRow :=
  if f.replyQueryFails postId then []
  else (repliesFor db postId).filter (fun r => ! f.scanReplyFails r)

/-- One iteration of the getPosts loop body after a successful base-row scan:
Replies is initialised to the empty slice, the like count is fetched (left at
its zero initialisation when that query fails, the failure only logged), the
reply rows are fetched and appended. -/
def aggregatePost (db : DB) (f : FaultModel) (p : PostRow) : PostView :=
  { id := p.id, userId := p.userId, content := p.content,
    likes := if f.likeQueryFails p.id then 0 else likeCount db p.id,
    replies := some (scannedReplies db f p.id),
    createdAt := p.createdAt, updatedAt := p.updatedAt }

/-- Ordering relation of ORDER BY created_at DESC: the timestamp of the later
row is at most the timestamp of the earlier row. -/
def postLe (a b : PostRow) : Prop := b.createdAt ≤ a.createdAt

instance : DecidableRel postLe := fun a b => Nat.decLe b.createdAt a.createdAt

instance : IsTotal PostRow postLe :=
  ⟨fun a b => (Nat.le_total b.createdAt a.createdAt).imp id id⟩

instance : IsTrans PostRow postLe :=
  ⟨fun _ _ _ hab hbc => Nat.le_trans hbc hab⟩

/-- SELECT id, user_id, content, created_at, updated_at FROM posts ORDER BY
created_at DESC — the base listing, modelled as a sort of the posts table by
descending creation timestamp. -/
def listPosts (db : DB) : List PostRow :=
  db.posts.insertionSort postLe

/-- The getPosts row loop: a failing base-row scan skips just that post and
the loop continues; a surviving post contributes one aggregated record. -/
def getPostsLoop (db : DB) (f : FaultModel) : List PostRow → List PostView
  | [] => []
  | p :: ps =>
    if f.scanPostFails p then getPostsLoop db f ps
    else aggregatePost db f p :: getPostsLoop db f ps

/-- Handler getPosts (src/hackthon/db/main.go, lines 185-234), the post
aggregator: run the row loop over the base listing. -/
def getPosts (db : DB) (f : FaultModel) : List PostView :=
  getPostsLoop db f (listPosts db)

/-- Outcome of one call to the summarization provider, as callGeminiAPI
observes it: building the request fails, the network call fails, or a response
arrives and is decoded into a candidate list, each candidate being its list of
part texts. json.Unmarshal errors are ignored in the source, so a malformed
response body leaves the zero value, which is the empty candidate list. -/
inductive GeminiOutcome where
  | requestBuildError : GeminiOutcome
  | networkError : GeminiOutcome
  | response : List (List String) → GeminiOutcome
deriving Repr, DecidableEq

/-- callGeminiAPI (src/hackthon/db/main.go, lines 425-464): answer the first
part text of the first candidate when both exist; answer the fixed string
要約エラー when the request could not be built or sent, and the distinct fixed
string 要約結果なし when the decoded candidate list yields no text. -/
def callGeminiAPI (outcome : GeminiOutcome) (text : String) : String :=
  match outcome with
  | .requestBuildError => "要約エラー"
  | .networkError => "要約エラー"
  | .response cands =>
    match cands with
    | [] => "要約結果なし"
    | parts :: _ =>
      match parts with
      | [] => "要約結果なし"
      | t :: _ => t

/-- The prompt template callGeminiAPI embeds the concatenated text into. -/
def geminiPrompt (text : String) : String :=
  "次のリプライ群を要約してください:\n" ++ text

/-- The text summarizeReplies hands to callGeminiAPI: the loop
all += content + newline over the reply listing of the post. -/
def geminiInput (db : DB) (postId : Nat) : String :=
  ((repliesFor db postId).map (fun r => r.content)).foldl
    (fun all c => all ++ (c ++ "\n")) ""

/-- Handler summarizeReplies (src/hackthon/db/main.go, lines 412-423).
The error of the reply query is discarded; when that query fails the loop
calls Next on a nil rows value and the handler crashes instead of answering,
modelled as none. On a successful fetch the concatenated reply texts are
summarized and the answer is always a string. -/
def summarizeReplies (db : DB) (replyQueryOk : Bool) (outcome : GeminiOutcome)
    (postId : Nat) : Option String :=
  if replyQueryOk then
    some (callGeminiAPI outcome (geminiInput db postId))
  else
    none

/-- The empty store. -/
def emptyDB : DB := ⟨[], [], [], [], 1, 1, 1⟩

/-- Newline-separated concatenation as the specification words it: the texts
joined with a newline between consecutive texts, nothing after the last. -/
def specNewlineJoin : List String → String
  | [] => ""
  | [t] => t
  | t :: ts => t ++ "\n" ++ specNewlineJoin ts

/-! ### Helper lemmas -/

theorem find?_append_of_eq_none {α : Type} (p : α → Bool) (l1 l2 : List α)
    (h : l1.find? p = none) : (l1 ++ l2).find? p = l2.find? p := by
  induction l1 with
  | nil => rfl
  | cons a t ih =>
    cases hpa : p a with
    | true =>
      rw [List.find?_cons_of_pos _ hpa] at h
      exact absurd h (by simp)
    | false =>
      rw [List.find?_cons_of_neg _ (by simp [hpa])] at h
      rw [List.cons_append, List.find?_cons_of_neg _ (by simp [hpa])]
      exact ih h

theorem selectUserIdByUid_users_find? (db : DB) (uid : String)
    (h : selectUserIdByUid db uid = none) :
    db.users.find? (fun u => u.uid == uid) = none := by
  unfold selectUserIdByUid at h
  cases hfind : db.users.find? (fun u => u.uid == uid) with
  | none => rfl
  | some u => rw [hfind] at h; exact absurd h (by simp)

theorem selectUserIdByUid_append_fresh (db : DB) (uid : String) (row : UserRow)
    (h : selectUserIdByUid db uid = none) (hrow : row.uid = uid) :
    selectUserIdByUid { db with users := db.users ++ [row] } uid = some row.id := by
  unfold selectUserIdByUid
  rw [show ({ db with users := db.users ++ [row] } : DB).users = db.users ++ [row] from rfl,
    find?_append_of_eq_none _ _ _ (selectUserIdByUid_users_find? db uid h)]
  simp [List.find?, hrow]

theorem filter_nil_of_selectUserIdByUid_none (db : DB) (uid : String)
    (h : selectUserIdByUid db uid = none) :
    db.users.filter (fun u => u.uid == uid) = [] := by
  have hf := selectUserIdByUid_users_find? db uid h
  rw [List.find?_eq_none] at hf
  rw [List.filter_eq_nil_iff]
  exact hf

/-! ### Identity resolver: claims C2 and C8 -/

/-- Claim C2: a first call of the login handler with a first-seen external
identifier and an immediate second call with the same identifier answer the
same internal key, the second call leaves the store untouched, and exactly one
users row carries that identifier afterwards. -/
theorem loginHandler_resolves_once (db : DB) (w : LoginWire) (uid : String)
    (now now2 : Nat) (hw : w.uid = some uid)
    (hfresh : selectUserIdByUid db uid = none) :
    ∃ k : Nat,
      (loginHandler db (some w) now).body = some k ∧
      (loginHandler ((loginHandler db (some w) now).db) (some w) now2).body = some k ∧
      (loginHandler ((loginHandler db (some w) now).db) (some w) now2).db
        = (loginHandler db (some w) now).db ∧
      ((loginHandler db (some w) now).db).users.filter (fun u => u.uid == uid)
        = [⟨db.nextUserId, uid, w.username.getD "", w.email.getD "", now⟩] := by
  refine ⟨db.nextUserId, ?_⟩
  have hgetD : w.uid.getD "" = uid := by rw [hw]; rfl
  have h1 : loginHandler db (some w) now =
      ⟨200, some db.nextUserId,
        { db with
          users := db.users ++ [⟨db.nextUserId, uid, w.username.getD "", w.email.getD "", now⟩],
          nextUserId := db.nextUserId + 1 }, 2⟩ := by
    simp [loginHandler, decodeLoginBody, hgetD, hfresh]
  have h2 : selectUserIdByUid ((loginHandler db (some w) now).db) uid = some db.nextUserId := by
    rw [h1]
    exact selectUserIdByUid_append_fresh db uid _ hfresh rfl
  rw [h1] at h2
  refine ⟨by rw [h1], ?_, ?_, ?_⟩
  · rw [h1]
    simp [loginHandler, decodeLoginBody, hgetD, h2]
  · rw [h1]
    simp [loginHandler, decodeLoginBody, hgetD, h2]
  · rw [h1]
    simp [List.filter_append, filter_nil_of_selectUserIdByUid_none db uid hfresh]

/-- Witness for claim C2 at a concrete first-seen identifier. -/
theorem loginHandler_resolves_once_witness :
    (⟨some "u-1", some "a@b", some "Alice"⟩ : LoginWire).uid = some "u-1" ∧
    selectUserIdByUid emptyDB "u-1" = none ∧
    ∃ k : Nat,
      (loginHandler emptyDB (some ⟨some "u-1", some "a@b", some "Alice"⟩) 3).body = some k ∧
      (loginHandler ((loginHandler emptyDB (some ⟨some "u-1", some "a@b", some "Alice"⟩) 3).db)
          (some ⟨some "u-1", some "a@b", some "Alice"⟩) 7).body = some k ∧
      (loginHandler ((loginHandler emptyDB (some ⟨some "u-1", some "a@b", some "Alice"⟩) 3).db)
          (some ⟨some "u-1", some "a@b", some "Alice"⟩) 7).db
        = (loginHandler emptyDB (some ⟨some "u-1", some "a@b", some "Alice"⟩) 3).db ∧
      ((loginHandler emptyDB (some ⟨some "u-1", some "a@b", some "Alice"⟩) 3).db).users.filter
          (fun u => u.uid == "u-1")
        = [⟨emptyDB.nextUserId, "u-1", (some "Alice").getD "", (some "a@b").getD "", 3⟩] :=
  ⟨rfl, by decide,
    loginHandler_resolves_once emptyDB ⟨some "u-1", some "a@b", some "Alice"⟩ "u-1" 3 7 rfl
      (by decide)⟩

/-- Claim C8: when the external identifier already resolves to an internal key,
the login handler answers that existing key and leaves the store completely
unchanged, whatever display name and contact address the request carries. -/
theorem loginHandler_existing_ignores_request_fields (db : DB) (w : LoginWire)
    (uid : String) (k : Nat) (now : Nat) (hw : w.uid = some uid)
    (hk : selectUserIdByUid db uid = some k) :
    loginHandler db (some w) now = ⟨200, some k, db, 1⟩ := by
  have hgetD : w.uid.getD "" = uid := by rw [hw]; rfl
  simp [loginHandler, decodeLoginBody, hgetD, hk]

/-- Witness for claim C8 at a concrete store holding the identifier. -/
theorem loginHandler_existing_ignores_request_fields_witness :
    (⟨some "u-1", some "other@mail", some "Other"⟩ : LoginWire).uid = some "u-1" ∧
    selectUserIdByUid ⟨[⟨7, "u-1", "Alice", "a@b", 0⟩], [], [], [], 8, 1, 1⟩ "u-1" = some 7 ∧
    loginHandler ⟨[⟨7, "u-1", "Alice", "a@b", 0⟩], [], [], [], 8, 1, 1⟩
        (some ⟨some "u-1", some "other@mail", some "Other"⟩) 5
      = ⟨200, some 7, ⟨[⟨7, "u-1", "Alice", "a@b", 0⟩], [], [], [], 8, 1, 1⟩, 1⟩ :=
  ⟨rfl, by decide,
    loginHandler_existing_ignores_request_fields
      ⟨[⟨7, "u-1", "Alice", "a@b", 0⟩], [], [], [], 8, 1, 1⟩
      ⟨some "u-1", some "other@mail", some "Other"⟩ "u-1" 7 5 rfl (by decide)⟩

/-! ### Like store: claim C1 -/

theorem countLikes_eq_zero_iff (db : DB) (u p : Nat) :
    countLikes db u p = 0 ↔ (u, p) ∉ db.likes := by
  unfold countLikes
  rw [List.length_eq_zero, List.filter_eq_nil_iff]
  constructor
  · intro h hm
    exact h _ hm (by simp)
  · intro h x hx
    simp only [beq_iff_eq]
    intro hxe
    exact h (hxe ▸ hx)

theorem insertIgnoreLike_users (db : DB) (a b : Nat) :
    (insertIgnoreLike db a b).users = db.users := by
  unfold insertIgnoreLike
  split <;> rfl

theorem countLikes_append (db : DB) (extra : List (Nat × Nat)) (u p : Nat) :
    countLikes { db with likes := db.likes ++ extra } u p
      = countLikes db u p + (extra.filter (fun l => l == (u, p))).length := by
  unfold countLikes
  simp [List.filter_append]

theorem countLikes_insertIgnoreLike_self (db : DB) (u p : Nat)
    (h : (u, p) ∉ db.likes) :
    countLikes (insertIgnoreLike db u p) u p = 1 := by
  unfold insertIgnoreLike
  rw [if_neg h, countLikes_append, (countLikes_eq_zero_iff db u p).mpr h]
  simp

theorem countLikes_insertIgnoreLike_le_one (db : DB) (a b : Nat)
    (h : ∀ u p, countLikes db u p ≤ 1) (u p : Nat) :
    countLikes (insertIgnoreLike db a b) u p ≤ 1 := by
  unfold insertIgnoreLike
  split
  · exact h u p
  · rename_i hnm
    rw [countLikes_append]
    by_cases hab : (a, b) = (u, p)
    · have hz : countLikes db u p = 0 := (countLikes_eq_zero_iff db u p).mpr (hab ▸ hnm)
      rw [hz, hab]
      simp
    · have hnil : List.filter (fun l => l == (u, p)) [(a, b)] = [] := by
        simp [hab]
      rw [hnil]
      simpa using h u p

theorem createLike_preserves_at_most_one (db : DB) (body : Option LikeWire)
    (h : ∀ u p, countLikes db u p ≤ 1) (u p : Nat) :
    countLikes ((createLike db body).db) u p ≤ 1 := by
  cases hd : decodeLikeBody body with
  | none =>
    simp only [createLike, hd]
    exact h u p
  | some req =>
    cases hs : selectUserIdByUid db req.uid with
    | none =>
      simp only [createLike, hd, hs]
      exact h u p
    | some userId =>
      simp only [createLike, hd, hs]
      exact countLikes_insertIgnoreLike_le_one db userId req.postId h u p

theorem createLike_foldl_at_most_one (bodies : List (Option LikeWire)) :
    ∀ db : DB, (∀ u p, countLikes db u p ≤ 1) →
      ∀ u p, countLikes (bodies.foldl (fun d b => (createLike d b).db) db) u p ≤ 1 := by
  induction bodies with
  | nil => intro db h u p; exact h u p
  | cons b rest ih =>
    intro db h u p
    exact ih ((createLike db b).db) (createLike_preserves_at_most_one db b h) u p

theorem createLike_eq_of_resolved (db : DB) (w : LikeWire) (uid : String)
    (u p : Nat) (hwu : w.uid = some uid) (hwp : w.postId = some p)
    (hu : selectUserIdByUid db uid = some u) :
    createLike db (some w) = ⟨200, some "いいね登録完了", insertIgnoreLike db u p, 2⟩ := by
  have hgu : w.uid.getD "" = uid := by rw [hwu]; rfl
  have hgp : w.postId.getD 0 = p := by rw [hwp]; rfl
  simp [createLike, decodeLikeBody, hgu, hgp, hu]

/-- Claim C1: with the store-level uniqueness constraint, each implementation
applies one duplicate policy consistently and at most one Like row ever holds
per (user, post) pair. For the deployed handler (silent no-op policy): the
first call on a fresh pair answers 200 and stores exactly one row, the
duplicate second call also answers 200 and leaves the store untouched, and any
sequence of createLike calls preserves at-most-one-row-per-pair. For the
snapshot variant (conflict policy): the duplicate second call answers 409 and
leaves the store untouched, again with exactly one row for the pair. -/
theorem createLike_at_most_one_per_pair (db : DB) (w : LikeWire) (uid : String)
    (u p : Nat) (hwu : w.uid = some uid) (hwp : w.postId = some p)
    (hu : selectUserIdByUid db uid = some u) (h0 : countLikes db u p = 0) :
    (createLike db (some w)).status = 200 ∧
    countLikes ((createLike db (some w)).db) u p = 1 ∧
    (createLike ((createLike db (some w)).db) (some w)).status = 200 ∧
    (createLike ((createLike db (some w)).db) (some w)).db = (createLike db (some w)).db ∧
    countLikes ((createLike ((createLike db (some w)).db) (some w)).db) u p = 1 ∧
    (∀ bodies : List (Option LikeWire), ∀ d : DB, (∀ a b, countLikes d a b ≤ 1) →
      ∀ a b, countLikes (bodies.foldl (fun dd bb => (createLike dd bb).db) d) a b ≤ 1) ∧
    (∀ d : DB, countLikes d u p = 0 →
      (createLikeConflict d (some (p, u))).status = 200 ∧
      countLikes ((createLikeConflict d (some (p, u))).db) u p = 1 ∧
      (createLikeConflict ((createLikeConflict d (some (p, u))).db) (some (p, u))).status = 409 ∧
      (createLikeConflict ((createLikeConflict d (some (p, u))).db) (some (p, u))).db
        = (createLikeConflict d (some (p, u))).db) := by
  have hnm : (u, p) ∉ db.likes := (countLikes_eq_zero_iff db u p).mp h0
  have h1 := createLike_eq_of_resolved db w uid u p hwu hwp hu
  have husers : (insertIgnoreLike db u p).users = db.users := insertIgnoreLike_users db u p
  have hu2 : selectUserIdByUid (insertIgnoreLike db u p) uid = some u := by
    unfold selectUserIdByUid at hu ⊢
    rw [husers]
    exact hu
  have hmem2 : (u, p) ∈ (insertIgnoreLike db u p).likes := by
    unfold insertIgnoreLike
    rw [if_neg hnm]
    simp
  have h2 := createLike_eq_of_resolved (insertIgnoreLike db u p) w uid u p hwu hwp hu2
  have hfix : ∀ d : DB, (u, p) ∈ d.likes → insertIgnoreLike d u p = d := by
    intro d hd
    unfold insertIgnoreLike
    rw [if_pos hd]
  have hstable : insertIgnoreLike (insertIgnoreLike db u p) u p = insertIgnoreLike db u p :=
    hfix _ hmem2
  have hcount1 : countLikes (insertIgnoreLike db u p) u p = 1 :=
    countLikes_insertIgnoreLike_self db u p hnm
  refine ⟨by rw [h1], by rw [h1]; exact hcount1, ?_, ?_, ?_, ?_, ?_⟩
  · rw [h1]
    show (createLike (insertIgnoreLike db u p) (some w)).status = 200
    rw [h2]
  · rw [h1]
    show (createLike (insertIgnoreLike db u p) (some w)).db = insertIgnoreLike db u p
    rw [h2]
    exact hstable
  · rw [h1]
    show countLikes (createLike (insertIgnoreLike db u p) (some w)).db u p = 1
    rw [h2]
    show countLikes (insertIgnoreLike (insertIgnoreLike db u p) u p) u p = 1
    rw [hstable]
    exact hcount1
  · exact fun bodies => createLike_foldl_at_most_one bodies
  · intro d hd0
    have hdnm : (u, p) ∉ d.likes := (countLikes_eq_zero_iff d u p).mp hd0
    have hc1 : createLikeConflict d (some (p, u))
        = ⟨200, some "created", { d with likes := d.likes ++ [(u, p)] }, 1⟩ := by
      simp [createLikeConflict, hdnm]
    have hmem : (u, p) ∈ ({ d with likes := d.likes ++ [(u, p)] } : DB).likes := by
      simp
    have hc2 : createLikeConflict ({ d with likes := d.likes ++ [(u, p)] } : DB) (some (p, u))
        = ⟨409, none, { d with likes := d.likes ++ [(u, p)] }, 1⟩ := by
      simp [createLikeConflict, hmem]
    refine ⟨by rw [hc1], ?_, ?_, ?_⟩
    · rw [hc1]
      show countLikes ({ d with likes := d.likes ++ [(u, p)] } : DB) u p = 1
      rw [countLikes_append, hd0]
      simp
    · rw [hc1]
      show (createLikeConflict ({ d with likes := d.likes ++ [(u, p)] } : DB) (some (p, u))).status = 409
      rw [hc2]
    · rw [hc1]
      show (createLikeConflict ({ d with likes := d.likes ++ [(u, p)] } : DB) (some (p, u))).db
        = ({ d with likes := d.likes ++ [(u, p)] } : DB)
      rw [hc2]

/-- Witness for claim C1 at a concrete user, post and fresh pair. -/
theorem createLike_at_most_one_per_pair_witness :
    (⟨some "u-1", some 5⟩ : LikeWire).uid = some "u-1" ∧
    (⟨some "u-1", some 5⟩ : LikeWire).postId = some 5 ∧
    selectUserIdByUid ⟨[⟨1, "u-1", "Alice", "a@b", 0⟩], [], [], [], 2, 1, 1⟩ "u-1" = some 1 ∧
    countLikes ⟨[⟨1, "u-1", "Alice", "a@b", 0⟩], [], [], [], 2, 1, 1⟩ 1 5 = 0 ∧
    ((createLike ⟨[⟨1, "u-1", "Alice", "a@b", 0⟩], [], [], [], 2, 1, 1⟩
        (some ⟨some "u-1", some 5⟩)).status = 200 ∧
      countLikes ((createLike ⟨[⟨1, "u-1", "Alice", "a@b", 0⟩], [], [], [], 2, 1, 1⟩
        (some ⟨some "u-1", some 5⟩)).db) 1 5 = 1 ∧
      (createLike ((createLike ⟨[⟨1, "u-1", "Alice", "a@b", 0⟩], [], [], [], 2, 1, 1⟩
        (some ⟨some "u-1", some 5⟩)).db) (some ⟨some "u-1", some 5⟩)).status = 200 ∧
      (createLike ((createLike ⟨[⟨1, "u-1", "Alice", "a@b", 0⟩], [], [], [], 2, 1, 1⟩
        (some ⟨some "u-1", some 5⟩)).db) (some ⟨some "u-1", some 5⟩)).db
        = (createLike ⟨[⟨1, "u-1", "Alice", "a@b", 0⟩], [], [], [], 2, 1, 1⟩
        (some ⟨some "u-1", some 5⟩)).db ∧
      countLikes ((createLike ((createLike ⟨[⟨1, "u-1", "Alice", "a@b", 0⟩], [], [], [], 2, 1, 1⟩
        (some ⟨some "u-1", some 5⟩)).db) (some ⟨some "u-1", some 5⟩)).db) 1 5 = 1 ∧
      (∀ bodies : List (Option LikeWire), ∀ d : DB, (∀ a b, countLikes d a b ≤ 1) →
        ∀ a b, countLikes (bodies.foldl (fun dd bb => (createLike dd bb).db) d) a b ≤ 1) ∧
      (∀ d : DB, countLikes d 1 5 = 0 →
        (createLikeConflict d (some (5, 1))).status = 200 ∧
        countLikes ((createLikeConflict d (some (5, 1))).db) 1 5 = 1 ∧
        (createLikeConflict ((createLikeConflict d (some (5, 1))).db) (some (5, 1))).status = 409 ∧
        (createLikeConflict ((createLikeConflict d (some (5, 1))).db) (some (5, 1))).db
          = (createLikeConflict d (some (5, 1))).db)) :=
  ⟨rfl, rfl, by decide, by decide,
    createLike_at_most_one_per_pair ⟨[⟨1, "u-1", "Alice", "a@b", 0⟩], [], [], [], 2, 1, 1⟩
      ⟨some "u-1", some 5⟩ "u-1" 1 5 rfl rfl (by decide) (by decide)⟩

/-! ### Post creation: claim C5 -/

/-- Claim C5: for a post created via createPost with a resolvable external
identifier, the answered Post carries the store-assigned key, the resolved
internal user key, the request content, like count zero and the empty
(non-nil) reply slice, both timestamps stamped now. -/
theorem createPost_returns_fresh_view (db : DB) (w : PostWire) (uid : String)
    (c : String) (u : Nat) (now : Nat) (hwu : w.uid = some uid)
    (hwc : w.content = some c) (hu : selectUserIdByUid db uid = some u) :
    (createPost db (some w) now).status = 200 ∧
    (createPost db (some w) now).body
      = some ⟨db.nextPostId, u, c, 0, some [], now, now⟩ ∧
    (createPost db (some w) now).db
      = { db with
          posts := db.posts ++ [⟨db.nextPostId, u, c, now, now⟩],
          nextPostId := db.nextPostId + 1 } := by
  have hgu : w.uid.getD "" = uid := by rw [hwu]; rfl
  have hgc : w.content.getD "" = c := by rw [hwc]; rfl
  refine ⟨?_, ?_, ?_⟩ <;> simp [createPost, decodePostBody, hgu, hgc, hu]

/-- Witness for claim C5 at a concrete store and request. -/
theorem createPost_returns_fresh_view_witness :
    (⟨some "u-1", some "hello"⟩ : PostWire).uid = some "u-1" ∧
    (⟨some "u-1", some "hello"⟩ : PostWire).content = some "hello" ∧
    selectUserIdByUid ⟨[⟨1, "u-1", "Alice", "a@b", 0⟩], [], [], [], 2, 4, 1⟩ "u-1" = some 1 ∧
    ((createPost ⟨[⟨1, "u-1", "Alice", "a@b", 0⟩], [], [], [], 2, 4, 1⟩
        (some ⟨some "u-1", some "hello"⟩) 9).status = 200 ∧
      (createPost ⟨[⟨1, "u-1", "Alice", "a@b", 0⟩], [], [], [], 2, 4, 1⟩
        (some ⟨some "u-1", some "hello"⟩) 9).body
        = some ⟨(⟨[⟨1, "u-1", "Alice", "a@b", 0⟩], [], [], [], 2, 4, 1⟩ : DB).nextPostId,
            1, "hello", 0, some [], 9, 9⟩ ∧
      (createPost ⟨[⟨1, "u-1", "Alice", "a@b", 0⟩], [], [], [], 2, 4, 1⟩
        (some ⟨some "u-1", some "hello"⟩) 9).db
        = { (⟨[⟨1, "u-1", "Alice", "a@b", 0⟩], [], [], [], 2, 4, 1⟩ : DB) with
            posts :=
              (⟨[⟨1, "u-1", "Alice", "a@b", 0⟩], [], [], [], 2, 4, 1⟩ : DB).posts
                ++ [⟨(⟨[⟨1, "u-1", "Alice", "a@b", 0⟩], [], [], [], 2, 4, 1⟩ : DB).nextPostId,
                    1, "hello", 9, 9⟩],
            nextPostId :=
              (⟨[⟨1, "u-1", "Alice", "a@b", 0⟩], [], [], [], 2, 4, 1⟩ : DB).nextPostId + 1 }) :=
  ⟨rfl, rfl, by decide,
    createPost_returns_fresh_view ⟨[⟨1, "u-1", "Alice", "a@b", 0⟩], [], [], [], 2, 4, 1⟩
      ⟨some "u-1", some "hello"⟩ "u-1" "hello" 1 9 rfl rfl (by decide)⟩

/-! ### Request validation: claim C9 -/

/-- Counterexample to claim C9: a body that is valid JSON but misses the
required uid field is not rejected as a 4xx BadRequest with no storage
operation; Go fills the zero value for the absent field, the handler proceeds
to the user lookup (a storage operation) and answers 500. -/
theorem missing_required_field_reaches_storage_cex :
    (createPost emptyDB (some ⟨none, some "hello"⟩) 0).status = 500 ∧
    (createPost emptyDB (some ⟨none, some "hello"⟩) 0).storageOps = 1 ∧
    (createLike emptyDB (some ⟨none, some 1⟩)).status = 500 ∧
    (createLike emptyDB (some ⟨none, some 1⟩)).storageOps = 1 := by
  refine ⟨?_, ?_, ?_, ?_⟩ <;> decide

/-- Claim C9 as amended: a malformed JSON body is rejected by every handler as
a 400 BadRequest with a short message, no storage operation performed and the
store left unchanged; a missing required field, however, is not detected at
decode time — the Go zero value is substituted and the handler proceeds to
storage, so createPost and createLike with an absent uid perform the user
lookup and, when the empty identifier does not resolve, answer 500. -/
theorem malformed_json_bad_request_no_storage (db : DB) (now : Nat) :
    (createPost db none now).status = 400 ∧
    (createPost db none now).storageOps = 0 ∧
    (createPost db none now).db = db ∧
    (createLike db none).status = 400 ∧
    (createLike db none).storageOps = 0 ∧
    (createLike db none).db = db ∧
    (loginHandler db none now).status = 400 ∧
    (loginHandler db none now).storageOps = 0 ∧
    (loginHandler db none now).db = db ∧
    (createReply db none now).status = 400 ∧
    (createReply db none now).storageOps = 0 ∧
    (createReply db none now).db = db ∧
    (∀ c : String, selectUserIdByUid db "" = none →
      (createPost db (some ⟨none, some c⟩) now).status = 500 ∧
      (createPost db (some ⟨none, some c⟩) now).storageOps = 1 ∧
      (createPost db (some ⟨none, some c⟩) now).db = db) := by
  refine ⟨rfl, rfl, rfl, rfl, rfl, rfl, rfl, rfl, rfl, rfl, rfl, rfl, ?_⟩
  intro c hnone
  refine ⟨?_, ?_, ?_⟩ <;>
    simp [createPost, decodePostBody, hnone]

/-- Witness for the amended claim C9 at the empty store. -/
theorem malformed_json_bad_request_no_storage_witness :
    ((createPost emptyDB none 0).status = 400 ∧
      (createPost emptyDB none 0).storageOps = 0 ∧
      (createPost emptyDB none 0).db = emptyDB ∧
      (createLike emptyDB none).status = 400 ∧
      (createLike emptyDB none).storageOps = 0 ∧
      (createLike emptyDB none).db = emptyDB ∧
      (loginHandler emptyDB none 0).status = 400 ∧
      (loginHandler emptyDB none 0).storageOps = 0 ∧
      (loginHandler emptyDB none 0).db = emptyDB ∧
      (createReply emptyDB none 0).status = 400 ∧
      (createReply emptyDB none 0).storageOps = 0 ∧
      (createReply emptyDB none 0).db = emptyDB ∧
      (∀ c : String, selectUserIdByUid emptyDB "" = none →
        (createPost emptyDB (some ⟨none, some c⟩) 0).status = 500 ∧
        (createPost emptyDB (some ⟨none, some c⟩) 0).storageOps = 1 ∧
        (createPost emptyDB (some ⟨none, some c⟩) 0).db = emptyDB)) :=
  malformed_json_bad_request_no_storage emptyDB 0

/-! ### Post aggregator: claims C3, C4 and C10 -/

theorem getPostsLoop_noFaults (db : DB) (l : List PostRow) :
    getPostsLoop db noFaults l = l.map (aggregatePost db noFaults) := by
  induction l with
  | nil => rfl
  | cons p ps ih =>
    show getPostsLoop db noFaults (p :: ps) = _
    rw [getPostsLoop, ih]
    rfl

theorem getPostsLoop_eq_filter_map (db : DB) (f : FaultModel) (l : List PostRow) :
    getPostsLoop db f l
      = (l.filter (fun p => ! f.scanPostFails p)).map (aggregatePost db f) := by
  induction l with
  | nil => rfl
  | cons p ps ih =>
    rw [getPostsLoop, ih]
    cases hp : f.scanPostFails p with
    | true => simp [List.filter_cons, hp]
    | false => simp [List.filter_cons, hp]

theorem mem_listPosts_of_mem (db : DB) (p : PostRow) (h : p ∈ db.posts) :
    p ∈ listPosts db :=
  (List.perm_insertionSort postLe db.posts).mem_iff.mpr h

theorem listPosts_sorted (db : DB) : List.Sorted postLe (listPosts db) :=
  List.sorted_insertionSort postLe db.posts

/-- Claim C3: the aggregated listing is ordered by non-increasing creation
time, and it is exactly one aggregated record per post of the base listing, in
the order the base listing returned them. -/
theorem getPosts_ordered_one_record_per_post (db : DB) :
    List.Pairwise (fun a b : PostView => b.createdAt ≤ a.createdAt)
      (getPosts db noFaults) ∧
    getPosts db noFaults = (listPosts db).map (aggregatePost db noFaults) ∧
    (getPosts db noFaults).map (fun v => v.id) = (listPosts db).map (fun p => p.id) := by
  have hmap : getPosts db noFaults = (listPosts db).map (aggregatePost db noFaults) :=
    getPostsLoop_noFaults db (listPosts db)
  refine ⟨?_, hmap, ?_⟩
  · rw [hmap]
    exact List.Pairwise.map _ (fun a b h => h) (listPosts_sorted db)
  · rw [hmap, List.map_map]
    rfl

/-- Partial-failure behaviour of the deployed getPosts of main.go: a failing
base-row scan skips exactly that post and the loop continues over the
remaining listing; a failing like-count sub-query leaves the like count at its
zero initialisation and a failing reply sub-query or reply-row scan leaves the
reply list at whatever was read before the failure, the post still being
included in the result. -/
theorem getPosts_partial_failure_policy (db : DB) (f : FaultModel) :
    getPosts db f
      = ((listPosts db).filter (fun p => ! f.scanPostFails p)).map (aggregatePost db f) ∧
    ∀ p : PostRow, p ∈ db.posts → f.scanPostFails p = false →
      aggregatePost db f p ∈ getPosts db f ∧
      (aggregatePost db f p).likes
        = (if f.likeQueryFails p.id then 0 else likeCount db p.id) ∧
      (aggregatePost db f p).replies
        = some (if f.replyQueryFails p.id then []
            else (repliesFor db p.id).filter (fun r => ! f.scanReplyFails r)) := by
  have heq : getPosts db f
      = ((listPosts db).filter (fun p => ! f.scanPostFails p)).map (aggregatePost db f) :=
    getPostsLoop_eq_filter_map db f (listPosts db)
  refine ⟨heq, ?_⟩
  intro p hp hscan
  refine ⟨?_, rfl, ?_⟩
  · rw [heq]
    exact List.mem_map_of_mem _
      (List.mem_filter.mpr ⟨mem_listPosts_of_mem db p hp, by simp [hscan]⟩)
  · rfl

/-- Claim C10: every aggregated record the listing returns carries a non-nil
reply slice — some list, the exact reply listing when nothing failed, hence
the empty list [] rather than null for a post without replies — and the Post
answered by createPost also carries the non-nil empty slice. -/
theorem getPosts_replies_never_null (db : DB) (f : FaultModel) :
    (∀ v : PostView, v ∈ getPosts db f → ∃ l : List ReplyRow, v.replies = some l) ∧
    (∀ v : PostView, v ∈ getPosts db noFaults → v.replies = some (repliesFor db v.id)) ∧
    (∀ body : Option PostWire, ∀ now : Nat, ∀ v : PostView,
      (createPost db body now).body = some v → v.replies = some []) := by
  refine ⟨?_, ?_, ?_⟩
  · intro v hv
    rw [getPosts, getPostsLoop_eq_filter_map db f (listPosts db)] at hv
    obtain ⟨p, _, hpv⟩ := List.mem_map.mp hv
    exact ⟨scannedReplies db f p.id, hpv ▸ rfl⟩
  · intro v hv
    rw [getPosts, getPostsLoop_noFaults db (listPosts db)] at hv
    obtain ⟨p, _, hpv⟩ := List.mem_map.mp hv
    rw [← hpv]
    show some (scannedReplies db noFaults p.id) = some (repliesFor db p.id)
    unfold scannedReplies noFaults
    simp
  · intro body now v hbody
    cases hd : decodePostBody body with
    | none =>
      simp only [createPost, hd] at hbody
      exact absurd hbody (by simp)
    | some req =>
      cases hs : selectUserIdByUid db req.uid with
      | none =>
        simp only [createPost, hd, hs] at hbody
        exact absurd hbody (by simp)
      | some userId =>
        simp only [createPost, hd, hs] at hbody
        rw [show v = ⟨db.nextPostId, userId, req.content, 0, some [], now, now⟩ from
          (Option.some_injective _ hbody).symm]

/-- A concrete store for witnesses: one user, two posts (the newer one second
in the table), two replies on the older post, one like on the older post. -/
def aggDB : DB :=
  ⟨[⟨1, "u-1", "Alice", "a@b", 0⟩],
   [⟨1, 1, "first", 10, 10⟩, ⟨2, 1, "second", 20, 20⟩],
   [⟨1, 1, 1, "r1", 30, 30⟩, ⟨2, 1, 1, "r2", 31, 31⟩],
   [(1, 1)], 2, 3, 3⟩

/-- A concrete failure oracle: scanning the base row of post 2 fails, the
like-count query of post 1 fails, and the scan of reply row 2 fails. -/
def aggFaults : FaultModel :=
  ⟨fun p => p.id == 2, fun i => i == 1, fun _ => false, fun r => r.id == 2⟩

/-- Witness for claim C10 at the concrete store. -/
theorem getPosts_replies_never_null_witness :
    aggregatePost aggDB noFaults ⟨1, 1, "first", 10, 10⟩ ∈ getPosts aggDB noFaults ∧
    (∃ l : List ReplyRow,
      (aggregatePost aggDB noFaults ⟨1, 1, "first", 10, 10⟩).replies = some l) ∧
    (aggregatePost aggDB noFaults ⟨1, 1, "first", 10, 10⟩).replies
      = some (repliesFor aggDB (aggregatePost aggDB noFaults ⟨1, 1, "first", 10, 10⟩).id) ∧
    (createPost aggDB (some ⟨some "u-1", some "x"⟩) 0).body
      = some ⟨3, 1, "x", 0, some [], 0, 0⟩ ∧
    (⟨3, 1, "x", 0, some [], 0, 0⟩ : PostView).replies = some [] :=
  ⟨by decide,
    (getPosts_replies_never_null aggDB noFaults).1 _ (by decide),
    (getPosts_replies_never_null aggDB noFaults).2.1 _ (by decide),
    by decide,
    (getPosts_replies_never_null aggDB noFaults).2.2 (some ⟨some "u-1", some "x"⟩) 0 _
      (by decide)⟩

/-! ### Summarizer bridge: claims C6 and C7 -/

/-- Counterexample to claim C6: the code does not return one fixed fallback
string covering both failure classes — a failed provider request yields
要約エラー while an empty candidate list yields the different string
要約結果なし — and when the reply fetch itself fails the handler does not
return a string at all (the discarded query error leads to a crash). -/
theorem summarize_single_fallback_cex :
    callGeminiAPI GeminiOutcome.networkError "" = "要約エラー" ∧
    callGeminiAPI (GeminiOutcome.response []) "" = "要約結果なし" ∧
    ("要約エラー" : String) ≠ "要約結果なし" ∧
    summarizeReplies emptyDB false GeminiOutcome.networkError 1 = none := by
  refine ⟨rfl, rfl, by decide, rfl⟩

/-- Claim C6 as amended: when the reply fetch succeeds, summarizeReplies
returns a string for every provider outcome, never raising to the caller;
request-build and network failures yield the fixed fallback 要約エラー, while
a malformed response or empty candidate list (and an empty part list of the
first candidate) yields the distinct fixed fallback 要約結果なし. A failed
reply fetch is not handled: its error is discarded and no string is
returned. -/
theorem summarizeReplies_fixed_fallbacks (db : DB) (postId : Nat)
    (cands : List (List String)) :
    summarizeReplies db true GeminiOutcome.networkError postId = some "要約エラー" ∧
    summarizeReplies db true GeminiOutcome.requestBuildError postId = some "要約エラー" ∧
    summarizeReplies db true (GeminiOutcome.response []) postId = some "要約結果なし" ∧
    summarizeReplies db true (GeminiOutcome.response ([] :: cands)) postId
      = some "要約結果なし" ∧
    (∀ o : GeminiOutcome, ∃ s : String, summarizeReplies db true o postId = some s) := by
  exact ⟨rfl, rfl, rfl, rfl, fun o => ⟨callGeminiAPI o (geminiInput db postId), rfl⟩⟩

/-- Newline-terminated concatenation: every text followed by a newline. -/
def nlTerminated : List String → String
  | [] => ""
  | t :: ts => t ++ "\n" ++ nlTerminated ts

theorem foldl_newline_eq (texts : List String) :
    ∀ acc : String,
      texts.foldl (fun all c => all ++ (c ++ "\n")) acc = acc ++ nlTerminated texts := by
  induction texts with
  | nil =>
    intro acc
    rw [List.foldl_nil]
    exact (String.append_empty acc).symm
  | cons t ts ih =>
    intro acc
    rw [List.foldl_cons, ih (acc ++ (t ++ "\n"))]
    show (acc ++ (t ++ "\n")) ++ nlTerminated ts = acc ++ ((t ++ "\n") ++ nlTerminated ts)
    exact String.append_assoc acc (t ++ "\n") (nlTerminated ts)

theorem nlTerminated_eq_join (texts : List String) (h : texts ≠ []) :
    nlTerminated texts = specNewlineJoin texts ++ "\n" := by
  induction texts with
  | nil => exact absurd rfl h
  | cons t ts ih =>
    cases ts with
    | nil =>
      show (t ++ "\n") ++ "" = t ++ "\n"
      exact String.append_empty (t ++ "\n")
    | cons t2 ts2 =>
      show t ++ "\n" ++ nlTerminated (t2 :: ts2) = specNewlineJoin (t :: t2 :: ts2) ++ "\n"
      rw [ih (by simp)]
      show (t ++ "\n") ++ (specNewlineJoin (t2 :: ts2) ++ "\n")
        = ((t ++ "\n") ++ specNewlineJoin (t2 :: ts2)) ++ "\n"
      exact (String.append_assoc (t ++ "\n") (specNewlineJoin (t2 :: ts2)) "\n").symm

/-- A concrete store for the summarizer bridge: one post with two replies
whose texts are a and b, created in that order. -/
def cexReplyDB : DB :=
  ⟨[], [⟨1, 1, "p", 0, 0⟩], [⟨1, 1, 1, "a", 0, 0⟩, ⟨2, 1, 1, "b", 0, 0⟩], [], 1, 2, 3⟩

/-- Counterexample to claim C7: the text handed to the provider call is not
the newline-separated concatenation of the reply texts — the loop appends a
newline after every text, so for reply texts a and b the submitted text ends
in a trailing newline the separator join does not have. -/
theorem geminiInput_not_separator_join_cex :
    geminiInput cexReplyDB 1 = "a\nb\n" ∧
    specNewlineJoin ((repliesFor cexReplyDB 1).map (fun r => r.content)) = "a\nb" ∧
    geminiInput cexReplyDB 1
      ≠ specNewlineJoin ((repliesFor cexReplyDB 1).map (fun r => r.content)) := by
  refine ⟨by decide, by decide, by decide⟩

/-- Claim C7 as amended: the text the bridge hands to the provider call is the
reply texts of the post in listing order, each text followed by a newline —
that is, the newline-separated concatenation plus one trailing newline when
any reply exists — and listing order is creation order: a newly inserted
reply row is listed after all earlier replies of its post. -/
theorem geminiInput_newline_terminated (db : DB) (postId : Nat)
    (hne : (repliesFor db postId).map (fun r => r.content) ≠ []) :
    geminiInput db postId
      = specNewlineJoin ((repliesFor db postId).map (fun r => r.content)) ++ "\n" ∧
    (∀ d : DB, ∀ row : ReplyRow,
      repliesFor { d with replies := d.replies ++ [row] } row.postId
        = repliesFor d row.postId ++ [row]) := by
  constructor
  · unfold geminiInput
    rw [foldl_newline_eq ((repliesFor db postId).map (fun r => r.content)) "",
      String.empty_append, nlTerminated_eq_join _ hne]
  · intro d row
    unfold repliesFor
    simp [List.filter_append]

/-- Witness for the amended claim C7 at the concrete two-reply store. -/
theorem geminiInput_newline_terminated_witness :
    ((repliesFor cexReplyDB 1).map (fun r => r.content) ≠ []) ∧
    (geminiInput cexReplyDB 1
        = specNewlineJoin ((repliesFor cexReplyDB 1).map (fun r => r.content)) ++ "\n" ∧
      (∀ d : DB, ∀ row : ReplyRow,
        repliesFor { d with replies := d.replies ++ [row] } row.postId
          = repliesFor d row.postId ++ [row])) :=
  ⟨by decide, geminiInput_newline_terminated cexReplyDB 1 (by decide)⟩

/-! ### The snapshot aggregator of src/unnamed/part_002: claim C4 -/

/-- The Reply shape the part_002 snapshot encodes: its SELECT reads id,
post_id, user_id, content and created_at only (no updated_at column, and its
Reply struct has no such field). -/
structure ReplyView2 where
  id : Nat
  postId : Nat
  userId : Nat
  content : String
  createdAt : Nat
deriving Repr, DecidableEq

/-- Projection of a stored reply row to the part_002 reply shape. -/
def replyView2 (r : ReplyRow) : ReplyView2 :=
  ⟨r.id, r.postId, r.userId, r.content, r.createdAt⟩

/-- The Post shape the part_002 snapshot encodes: base fields, the like count
scanned from a correlated subquery of the main SELECT, and the reply list.
That handler never initialises Replies, so a post whose loop appends no reply
keeps the nil slice (JSON null), modelled as none. -/
structure PostView2 where
  id : Nat
  userId : Nat
  content : String
  likes : Nat
  replies : Option (List ReplyView2)
  createdAt : Nat
deriving Repr, DecidableEq

/-- One successfully scanned row of the part_002 listing: the like count
arrives with the base row (correlated subquery), a failing reply-row scan
skips just that reply (the err == nil guard), and zero appended replies leave
the nil slice. -/
def aggregatePost2 (db : DB) (f : FaultModel) (p : PostRow) : PostView2 :=
  let reps := ((repliesFor db p.id).filter (fun r => ! f.scanReplyFails r)).map replyView2
  ⟨p.id, p.userId, p.content, likeCount db p.id,
    if reps = [] then none else some reps, p.createdAt⟩

/-- The row loop of getPostsHandler in src/unnamed/part_002 (lines 115-140):
a failing base-row scan or a failing per-post reply query answers
http.Error 500 and returns, aborting the whole listing (none); otherwise the
aggregated record is accumulated. -/
def getPostsHandlerLoop (db : DB) (f : FaultModel) : List PostRow → Option (List PostView2)
  | [] => some []
  | p :: ps =>
    if f.scanPostFails p then none
    else if f.replyQueryFails p.id then none
    else
      match getPostsHandlerLoop db f ps with
      | none => none
      | some rest => some (aggregatePost2 db f p :: rest)

/-- Handler getPostsHandler of the snapshot src/unnamed/part_002: run the
abort-on-failure row loop over the ORDER BY created_at DESC listing; any
base-row scan or reply sub-query failure yields a 500 with no body. -/
def getPostsHandler (db : DB) (f : FaultModel) : Nat × Option (List PostView2) :=
  match getPostsHandlerLoop db f (listPosts db) with
  | none => (500, none)
  | some views => (200, some views)

/-- A failure oracle where only the reply sub-query of post 1 fails. -/
def replyFaults : FaultModel :=
  ⟨fun _ => false, fun _ => false, fun i => i == 1, fun _ => false⟩

theorem getPostsHandlerLoop_ok (db : DB) (f : FaultModel) (l : List PostRow)
    (h : ∀ p ∈ l, f.scanPostFails p = false ∧ f.replyQueryFails p.id = false) :
    getPostsHandlerLoop db f l = some (l.map (aggregatePost2 db f)) := by
  induction l with
  | nil => rfl
  | cons p ps ih =>
    have hp := h p (List.mem_cons_self p ps)
    have hrest := ih (fun q hq => h q (List.mem_cons_of_mem p hq))
    simp [getPostsHandlerLoop, hp.1, hp.2, hrest]

theorem getPostsHandlerLoop_abort (db : DB) (f : FaultModel) (l : List PostRow)
    (p : PostRow) (hp : p ∈ l)
    (hfail : f.scanPostFails p = true ∨ f.replyQueryFails p.id = true) :
    getPostsHandlerLoop db f l = none := by
  induction l with
  | nil => exact absurd hp (List.not_mem_nil p)
  | cons q ps ih =>
    cases hs : f.scanPostFails q with
    | true => simp [getPostsHandlerLoop, hs]
    | false =>
      cases hr : f.replyQueryFails q.id with
      | true => simp [getPostsHandlerLoop, hs, hr]
      | false =>
        rcases List.mem_cons.mp hp with heq | hmem
        · subst heq
          rcases hfail with h1 | h2
          · rw [hs] at h1
            exact absurd h1 (by simp)
          · rw [hr] at h2
            exact absurd h2 (by simp)
        · simp [getPostsHandlerLoop, hs, hr, ih hmem]

/-- Counterexample to claim C4: in the cited snapshot getPostsHandler of
src/unnamed/part_002, a failing base-row scan does not skip only that post —
post 2 failing its scan aborts the whole listing with a 500 and no body, even
though post 1 scans fine and should have been included — and a failing reply
sub-query is fatal too, aborting the listing instead of including the post
with the data read so far. -/
theorem getPostsHandler_aborts_listing_cex :
    getPostsHandler aggDB aggFaults = (500, none) ∧
    (⟨1, 1, "first", 10, 10⟩ : PostRow) ∈ aggDB.posts ∧
    aggFaults.scanPostFails ⟨1, 1, "first", 10, 10⟩ = false ∧
    aggFaults.scanPostFails ⟨2, 1, "second", 20, 20⟩ = true ∧
    getPostsHandler aggDB replyFaults = (500, none) := by
  refine ⟨by decide, by decide, by decide, by decide, by decide⟩

/-- Claim C4 as amended: the deployed aggregator (getPosts of main.go) does
apply the claimed policy — a failing base-row scan skips exactly that post
and the loop continues, a failing like-count sub-query leaves the count at
its zero initialisation and a failing reply sub-query or reply-row scan
leaves the reply list at whatever was read before the failure, the post still
included and the failure only logged — but the snapshot getPostsHandler of
src/unnamed/part_002 does not: there a base-row scan or reply sub-query
failure anywhere in the listing aborts the whole request with a 500 and no
body (only its reply-row scan failures are non-fatal, skipping just that
reply), and the listing succeeds exactly when no listed post fails. -/
theorem aggregator_partial_failure_policy (db : DB) (f : FaultModel) :
    (getPosts db f
        = ((listPosts db).filter (fun p => ! f.scanPostFails p)).map (aggregatePost db f) ∧
      (∀ p : PostRow, p ∈ db.posts → f.scanPostFails p = false →
        aggregatePost db f p ∈ getPosts db f ∧
        (aggregatePost db f p).likes
          = (if f.likeQueryFails p.id then 0 else likeCount db p.id) ∧
        (aggregatePost db f p).replies
          = some (if f.replyQueryFails p.id then []
              else (repliesFor db p.id).filter (fun r => ! f.scanReplyFails r)))) ∧
    ((∀ p ∈ listPosts db, f.scanPostFails p = false ∧ f.replyQueryFails p.id = false) →
      getPostsHandler db f = (200, some ((listPosts db).map (aggregatePost2 db f)))) ∧
    (∀ p ∈ listPosts db, f.scanPostFails p = true ∨ f.replyQueryFails p.id = true →
      getPostsHandler db f = (500, none)) := by
  refine ⟨getPosts_partial_failure_policy db f, ?_, ?_⟩
  · intro h
    unfold getPostsHandler
    rw [getPostsHandlerLoop_ok db f (listPosts db) h]
  · intro p hp hfail
    unfold getPostsHandler
    rw [getPostsHandlerLoop_abort db f (listPosts db) p hp hfail]

/-- Witness for the amended claim C4 at the concrete store: the deployed
loop keeps post 1 under the failure oracle, the snapshot handler answers the
full listing when nothing fails and 500 with no body when post 2 fails. -/
theorem aggregator_partial_failure_policy_witness :
    ((⟨1, 1, "first", 10, 10⟩ : PostRow) ∈ aggDB.posts ∧
      aggFaults.scanPostFails ⟨1, 1, "first", 10, 10⟩ = false) ∧
    (getPosts aggDB aggFaults
        = ((listPosts aggDB).filter (fun p => ! aggFaults.scanPostFails p)).map
            (aggregatePost aggDB aggFaults) ∧
      (aggregatePost aggDB aggFaults ⟨1, 1, "first", 10, 10⟩ ∈ getPosts aggDB aggFaults ∧
        (aggregatePost aggDB aggFaults ⟨1, 1, "first", 10, 10⟩).likes
          = (if aggFaults.likeQueryFails (⟨1, 1, "first", 10, 10⟩ : PostRow).id then 0
              else likeCount aggDB (⟨1, 1, "first", 10, 10⟩ : PostRow).id) ∧
        (aggregatePost aggDB aggFaults ⟨1, 1, "first", 10, 10⟩).replies
          = some (if aggFaults.replyQueryFails (⟨1, 1, "first", 10, 10⟩ : PostRow).id then []
              else (repliesFor aggDB (⟨1, 1, "first", 10, 10⟩ : PostRow).id).filter
                (fun r => ! aggFaults.scanReplyFails r)))) ∧
    getPostsHandler aggDB noFaults
      = (200, some ((listPosts aggDB).map (aggregatePost2 aggDB noFaults))) ∧
    getPostsHandler aggDB aggFaults = (500, none) :=
  ⟨⟨by decide, by decide⟩,
    ⟨(aggregator_partial_failure_policy aggDB aggFaults).1.1,
      (aggregator_partial_failure_policy aggDB aggFaults).1.2 ⟨1, 1, "first", 10, 10⟩
        (by decide) (by decide)⟩,
    (aggregator_partial_failure_policy aggDB noFaults).2.1 (by decide),
    (aggregator_partial_failure_policy aggDB aggFaults).2.2 ⟨2, 1, "second", 20, 20⟩
      (by decide) (Or.inl (by decide))⟩
